import Mathlib

/-!  Verification development for the ChatbotRag repository (src/app.py).

The file shallowly embeds the retrieval-and-grounding pipeline of the
FastAPI application: the three-tier similarity search
(`search_similar_chunks`), the answer composer (`generate_answer`) and the
`/chat` request handler (`chat`).  External effects (database queries, the
embedding model, the Groq completion client) are modelled by an explicit
environment `Env`: each database statement either succeeds with a result
computed from the stored rows or raises with a recorded message, and the
completion client is an opaque function that may raise.  Every operation
additionally records a trace of the external calls it attempted, so that
ordering properties ("tier 2 is attempted before tier 3") are provable.
Python floats are embedded as exact rationals, Python strings as Lean
strings, and result rows (Python dicts) as association lists so that a
missing key raises a `KeyError` exactly as in Python.
-/

namespace ChatbotRag

/-- A Python value held in a result-row dictionary. -/
inductive PyVal where
  | pstr (s : String)
  | pnum (q : ℚ)
deriving DecidableEq

/-- A Python dict as produced by `dict(row)` on a `RealDictCursor` row:
an insertion-ordered association list. -/
abbrev PyDict := List (String × PyVal)

/-- `d[k]` in Python: the value at key `k`, or a `KeyError` whose message is
the repr of the key. -/
def pyGet (d : PyDict) (k : String) : Except String PyVal :=
  match d with
  | [] => Except.error ("'" ++ k ++ "'")
  | kv :: rest => if kv.fst = k then Except.ok kv.snd else pyGet rest k

/-- `str(v)` / f-string rendering of a dict value. -/
def pyValStr : PyVal → String
  | PyVal.pstr s => s
  | PyVal.pnum q => toString q

/-- A row of the `items_xbox` table: a text passage and its stored embedding. -/
structure StoredRow where
  text : String
  embedding : List ℚ
deriving DecidableEq

/-- One attempted external call, recorded in order of attempt. -/
inductive Event where
  | introspectCols : Event
  | introspectSample : Event
  | tier1 (queryEmbedding : List ℚ) (topK : Nat) : Event
  | tier2 (queryEmbedding : List ℚ) (topK : Nat) : Event
  | tier3 (pat : String) (topK : Nat) : Event
  | compose (query : String) : Event
  | llmCall (mdl : String) (prompt : String) (maxTokens : Nat) (temperature : ℚ) : Event
deriving DecidableEq

/-- `fastapi.HTTPException`: a status code and a detail string. -/
structure HTTPError where
  status : Nat
  detail : String
deriving DecidableEq

/-- `str(HTTPException(status_code=c, detail=d))` (Starlette renders it as
`"{c}: {d}"`). -/
def httpErrorStr (e : HTTPError) : String :=
  toString e.status ++ ": " ++ e.detail

/-- The environment of one request: the read-only passage store, the opaque
embedding model and vector-distance operator, the configured model id, the
failure behaviour of each database statement (`none` = the statement
succeeds, `some msg` = it raises with message `msg`), and the Groq
completion client `llm model prompt max_tokens temperature`. -/
structure Env where
  rows : List StoredRow
  encode : String → List ℚ
  dist : List ℚ → List ℚ → ℚ
  groqModel : String
  connErr : Option String
  colsErr : Option String
  sampleErr : Option String
  tier1Err : Option String
  tier2Err : Option String
  tier3Err : Option String
  llm : String → String → Nat → ℚ → Except String String

/-- `lower()` on one character, as Postgres applies it to ASCII. -/
def asciiLower (c : Char) : Char :=
  if 65 ≤ c.toNat ∧ c.toNat ≤ 90 then Char.ofNat (c.toNat + 32) else c

/-- `map lower` over a character list. -/
def lowerList (l : List Char) : List Char := l.map asciiLower

/-- The `_` wildcard step: consume exactly one text character, then match
the rest of the text with `f`. -/
def stepOne (f : List Char → Bool) : List Char → Bool
  | [] => false
  | _ :: ts => f ts

/-- A literal-character step, compared case-insensitively, then match the
rest of the text with `f`. -/
def stepLit (f : List Char → Bool) (c : Char) : List Char → Bool
  | [] => false
  | d :: ts => (asciiLower d == asciiLower c) && f ts

/-- SQL `LIKE` pattern matching with case-insensitive literal comparison
(the semantics of Postgres `ILIKE`): `%` matches any remaining-text suffix,
`_` matches exactly one character, a backslash escapes the next pattern
character. -/
def likeMatches : List Char → List Char → Bool
  | [], t => t.isEmpty
  | c :: ps, t =>
    if c = '%' then
      t.tails.any (fun t2 => likeMatches ps t2)
    else if c = '_' then
      stepOne (fun ts => likeMatches ps ts) t
    else if c = '\\' then
      (match ps with
       | [] => false
       | e :: ps2 => stepLit (fun ts => likeMatches ps2 ts) e t)
    else
      stepLit (fun ts => likeMatches ps ts) c t

/-- `text ILIKE pat` for strings. -/
def ilike (pat text : String) : Bool :=
  likeMatches pat.toList text.toList

/-- The spec's wording for tier 3: `q` occurs in `t` as a case-insensitive
substring.  (Spec-side definition, to be compared with the `ILIKE` call the
code actually issues.) -/
def listPre : List Char → List Char → Bool
  | [], _ => true
  | _ :: _, [] => false
  | a :: as, b :: bs => (a == b) && listPre as bs

/-- `w` occurs in `t` as a contiguous sublist. -/
def listSub : List Char → List Char → Bool
  | w, [] => w.isEmpty
  | w, t@(_ :: ts) => listPre w t || listSub w ts

/-- Case-insensitive substring containment, the spec's description of the
textual fallback's match condition. -/
def containsCI (q t : String) : Bool :=
  listSub (lowerList q.toList) (lowerList t.toList)

/-- One result row as each tier's SQL projects it:
`{"text": …, "similarity": …}`. -/
def mkResultRow (t : String) (s : ℚ) : PyDict :=
  [("text", PyVal.pstr t), ("similarity", PyVal.pnum s)]

/-- Insert into a list sorted by `le`. -/
def insertLe {α : Type} (le : α → α → Bool) (a : α) : List α → List α
  | [] => [a]
  | b :: bs => if le a b then a :: b :: bs else b :: insertLe le a bs

/-- Sort by `le` (the model of SQL `ORDER BY`). -/
def sortLe {α : Type} (le : α → α → Bool) : List α → List α
  | [] => []
  | a :: as => insertLe le a (sortLe le as)

/-- The result set of the two vector tiers when they succeed:
`SELECT text, 1 - (embedding <=> qe) AS similarity FROM items_xbox
ORDER BY embedding <=> qe LIMIT top_k` (tier 2 issues the same statement
with an explicit cast, producing the same rows). -/
def vecRows (env : Env) (qe : List ℚ) (topK : Nat) : List PyDict :=
  let sorted := sortLe (fun a b => decide (env.dist qe a.embedding ≤ env.dist qe b.embedding)) env.rows
  (sorted.take topK).map (fun r => mkResultRow r.text (1 - env.dist qe r.embedding))

/-- The result set of the textual tier when it succeeds:
`SELECT text, 0.5 AS similarity FROM items_xbox WHERE text ILIKE pat
LIMIT top_k` with `pat = '%' + query + '%'`, in store-native row order. -/
def textRows (env : Env) (query : String) (topK : Nat) : List PyDict :=
  ((env.rows.filter (fun r => ilike ("%" ++ query ++ "%") r.text)).take topK).map
    (fun r => mkResultRow r.text (1/2))

/-- `search_similar_chunks(query, top_k)` (src/app.py lines 53–134): connect,
run the two schema-introspection statements, then attempt tier 1 (native
vector), tier 2 (cast fallback) and tier 3 (ILIKE text search) in order,
each tier's failure caught locally; an introspection or tier-3 failure
reaches the outer handler, which raises `HTTPException(500, "Search failed:
{e}")`.  Returns the result (rows or HTTP error) and the trace of attempted
external calls. -/
def search_similar_chunks (env : Env) (query : String) (topK : Nat) :
    Except HTTPError (List PyDict) × List Event :=
  let qe := env.encode query
  match env.connErr with
  | some e => (Except.error ⟨500, "Database connection failed: " ++ e⟩, [])
  | none =>
    match env.colsErr with
    | some e => (Except.error ⟨500, "Search failed: " ++ e⟩, [Event.introspectCols])
    | none =>
      match env.sampleErr with
      | some e =>
          (Except.error ⟨500, "Search failed: " ++ e⟩,
           [Event.introspectCols, Event.introspectSample])
      | none =>
        match env.tier1Err with
        | none =>
            (Except.ok (vecRows env qe topK),
             [Event.introspectCols, Event.introspectSample, Event.tier1 qe topK])
        | some _ =>
          match env.tier2Err with
          | none =>
              (Except.ok (vecRows env qe topK),
               [Event.introspectCols, Event.introspectSample,
                Event.tier1 qe topK, Event.tier2 qe topK])
          | some _ =>
            match env.tier3Err with
            | none =>
                (Except.ok (textRows env query topK),
                 [Event.introspectCols, Event.introspectSample,
                  Event.tier1 qe topK, Event.tier2 qe topK,
                  Event.tier3 ("%" ++ query ++ "%") topK])
            | some e3 =>
                (Except.error ⟨500, "Search failed: " ++ e3⟩,
                 [Event.introspectCols, Event.introspectSample,
                  Event.tier1 qe topK, Event.tier2 qe topK,
                  Event.tier3 ("%" ++ query ++ "%") topK])

/-- `mapM` over `Except`, the failure semantics of a Python list
comprehension: the first raising element aborts the whole list. -/
def mapExc {α β : Type} (f : α → Except String β) : List α → Except String (List β)
  | [] => Except.ok []
  | a :: as => do
    let b ← f a
    let bs ← mapExc f as
    Except.ok (b :: bs)

/-- Python `sep.join(pieces)`. -/
def joinSep (sep : String) : List String → String
  | [] => ""
  | [a] => a
  | a :: rest => a ++ sep ++ joinSep sep rest

/-- The grounding context of `generate_answer`:
`"\n\n".join(f"Source {i+1}: {chunk['text']}" for i, chunk in
enumerate(relevant_chunks))`; raises if a chunk has no `"text"` key. -/
def buildContext (chunks : List PyDict) : Except String String := do
  let pieces ← mapExc
    (fun ic => do
      let t ← pyGet ic.snd "text"
      Except.ok ("Source " ++ toString (ic.fst + 1) ++ ": " ++ pyValStr t))
    chunks.enum
  Except.ok (joinSep "\n\n" pieces)

/-- The prompt f-string of `generate_answer`, byte for byte (including the
trailing space after "device." and the 8-space indentation of the
triple-quoted literal). -/
def mkPrompt (context query : String) : String :=
  "You are a helpful assistant answering questions about the Xbox ROG Ally handheld device. \n        Use the following information to answer the user's question. If you don't know the answer based on the provided information, say so.\n\n        Context:\n        "
    ++ context
    ++ "\n\n        User Question: " ++ query ++ "\n\n        Answer:"

/-- `f"Sorry, I encountered an error generating the answer: {e}"`. -/
def llmErrorAnswer (e : String) : String :=
  "Sorry, I encountered an error generating the answer: " ++ e

/-- Python `str.strip()` (ASCII whitespace). -/
def pyStrip (s : String) : String :=
  String.mk (((s.toList.dropWhile Char.isWhitespace).reverse.dropWhile
    Char.isWhitespace).reverse)

/-- `generate_answer(query, relevant_chunks)` (src/app.py lines 136–166):
build the context and prompt, call the completion service with
`max_tokens=1000, temperature=0.7`, and return the stripped completion;
any exception inside the `try` is converted to the user-facing error
string.  Also returns the trace of attempted external calls. -/
def generate_answer (env : Env) (query : String) (chunks : List PyDict) :
    String × List Event :=
  match buildContext chunks with
  | Except.error e => (llmErrorAnswer e, [Event.compose query])
  | Except.ok context =>
    let prompt := mkPrompt context query
    match env.llm env.groqModel prompt 1000 (7/10) with
    | Except.ok c =>
        (pyStrip c,
         [Event.compose query, Event.llmCall env.groqModel prompt 1000 (7/10)])
    | Except.error e =>
        (llmErrorAnswer e,
         [Event.compose query, Event.llmCall env.groqModel prompt 1000 (7/10)])

/-- The canned no-information answer of the `/chat` handler. -/
def cannedAnswer : String :=
  "I don't have enough information to answer your question. The Xbox ROG Ally data needs to be available in the database."

/-- `chunk["text"][:200] + "..." if len(chunk["text"]) > 200 else
chunk["text"]`. -/
def truncateContent (t : String) : String :=
  if t.length > 200 then t.take 200 ++ "..." else t

/-- Python `round(x)` on an exact value: nearest integer, ties to even. -/
def pyRound (x : ℚ) : ℤ :=
  let f := ⌊x⌋
  let r := x - (f : ℚ)
  if r < 1/2 then f
  else if (1/2 : ℚ) < r then f + 1
  else if f % 2 = 0 then f else f + 1

/-- Python `round(x, 3)`. -/
def round3 (x : ℚ) : ℚ := ((pyRound (x * 1000) : ℤ) : ℚ) / 1000

/-- One entry of `ChatResponse.sources`. -/
structure Source where
  content : String
  similarity : ℚ
deriving DecidableEq

/-- One element of the handler's `sources` comprehension; raises if a key is
missing or a value has the wrong Python type. -/
def formatSource (d : PyDict) : Except String Source := do
  let tv ← pyGet d "text"
  let sv ← pyGet d "similarity"
  match tv, sv with
  | PyVal.pstr t, PyVal.pnum s => Except.ok ⟨truncateContent t, round3 s⟩
  | _, _ => Except.error "TypeError"

/-- The handler's `sources` list comprehension. -/
def formatSources (chunks : List PyDict) : Except String (List Source) :=
  mapExc formatSource chunks

/-- `ChatRequest`. -/
structure ChatRequest where
  message : String

/-- `ChatResponse`. -/
structure ChatResponse where
  answer : String
  sources : List Source
deriving DecidableEq

/-- The `/chat` handler (src/app.py lines 168–196): retrieve with
`top_k = 5`; on an empty result return the canned answer with no sources;
otherwise compose the answer and format the sources; any exception is
re-raised as `HTTPException(500, str(e))`.  Returns the HTTP outcome and the
trace of attempted external calls. -/
def chat (env : Env) (req : ChatRequest) : Except HTTPError ChatResponse × List Event :=
  match search_similar_chunks env req.message 5 with
  | (Except.error e, tr) => (Except.error ⟨500, httpErrorStr e⟩, tr)
  | (Except.ok chunks, tr) =>
    if chunks.isEmpty then (Except.ok ⟨cannedAnswer, []⟩, tr)
    else
      let ga := generate_answer env req.message chunks
      match formatSources chunks with
      | Except.ok srcs => (Except.ok ⟨ga.fst, srcs⟩, tr ++ ga.snd)
      | Except.error e => (Except.error ⟨500, e⟩, tr ++ ga.snd)

/-! ### Basic facts about the retriever -/

/-- A row as every tier's SQL projects it. -/
def IsResultRow (d : PyDict) : Prop := ∃ t s, d = mkResultRow t s

/-- The `"text"` value of a well-formed result row. -/
def rowText (d : PyDict) : String :=
  match pyGet d "text" with
  | Except.ok (PyVal.pstr t) => t
  | _ => ""

/-- The `"similarity"` value of a well-formed result row. -/
def rowSim (d : PyDict) : ℚ :=
  match pyGet d "similarity" with
  | Except.ok (PyVal.pnum s) => s
  | _ => 0

theorem rowText_mkResultRow (t : String) (s : ℚ) : rowText (mkResultRow t s) = t := rfl

theorem rowSim_mkResultRow (t : String) (s : ℚ) : rowSim (mkResultRow t s) = s := rfl

/-- When the whole search succeeds, its result set is the one computed by a
vector tier or by the textual tier. -/
theorem searchOk_cases (env : Env) (q : String) (k : Nat) (l : List PyDict)
    (h : (search_similar_chunks env q k).fst = Except.ok l) :
    l = vecRows env (env.encode q) k ∨ l = textRows env q k := by
  unfold search_similar_chunks at h
  rcases hc : env.connErr with _ | e <;> simp [hc] at h
  rcases h1 : env.colsErr with _ | e <;> simp [h1] at h
  rcases h2 : env.sampleErr with _ | e <;> simp [h2] at h
  rcases h3 : env.tier1Err with _ | e <;> simp [h3] at h
  · exact Or.inl h.symm
  rcases h4 : env.tier2Err with _ | e <;> simp [h4] at h
  · exact Or.inl h.symm
  rcases h5 : env.tier3Err with _ | e <;> simp [h5] at h
  exact Or.inr h.symm

/-- Every row a successful search returns has exactly the keys `"text"` and
`"similarity"`, with a string and a number respectively. -/
theorem searchOk_wellFormed (env : Env) (q : String) (k : Nat) (l : List PyDict)
    (h : (search_similar_chunks env q k).fst = Except.ok l) :
    ∀ d ∈ l, IsResultRow d := by
  intro d hd
  rcases searchOk_cases env q k l h with rfl | rfl
  · rcases List.mem_map.mp hd with ⟨r, _, rfl⟩
    exact ⟨_, _, rfl⟩
  · rcases List.mem_map.mp hd with ⟨r, _, rfl⟩
    exact ⟨_, _, rfl⟩

/-- With an empty corpus, every successful search returns the empty list. -/
theorem searchOk_empty_rows (env : Env) (q : String) (k : Nat) (l : List PyDict)
    (hrows : env.rows = []) (h : (search_similar_chunks env q k).fst = Except.ok l) :
    l = [] := by
  rcases searchOk_cases env q k l h with rfl | rfl <;>
    simp [vecRows, textRows, hrows, sortLe]

/-- The full outcome of the search when the introspection succeeds and
tier 1 succeeds. -/
theorem search_eq_tier1 (env : Env) (q : String) (k : Nat)
    (hconn : env.connErr = none) (hcols : env.colsErr = none)
    (hsample : env.sampleErr = none) (h1 : env.tier1Err = none) :
    search_similar_chunks env q k =
      (Except.ok (vecRows env (env.encode q) k),
       [Event.introspectCols, Event.introspectSample,
        Event.tier1 (env.encode q) k]) := by
  unfold search_similar_chunks
  simp [hconn, hcols, hsample, h1]

/-- The full outcome of the search when tier 1 raises and tier 2 succeeds. -/
theorem search_eq_tier2 (env : Env) (q : String) (k : Nat) (e1 : String)
    (hconn : env.connErr = none) (hcols : env.colsErr = none)
    (hsample : env.sampleErr = none) (h1 : env.tier1Err = some e1)
    (h2 : env.tier2Err = none) :
    search_similar_chunks env q k =
      (Except.ok (vecRows env (env.encode q) k),
       [Event.introspectCols, Event.introspectSample,
        Event.tier1 (env.encode q) k, Event.tier2 (env.encode q) k]) := by
  unfold search_similar_chunks
  simp [hconn, hcols, hsample, h1, h2]

/-- The full outcome of the search when both vector tiers raise and the
textual tier succeeds. -/
theorem search_eq_tier3 (env : Env) (q : String) (k : Nat) (e1 e2 : String)
    (hconn : env.connErr = none) (hcols : env.colsErr = none)
    (hsample : env.sampleErr = none) (h1 : env.tier1Err = some e1)
    (h2 : env.tier2Err = some e2) (h3 : env.tier3Err = none) :
    search_similar_chunks env q k =
      (Except.ok (textRows env q k),
       [Event.introspectCols, Event.introspectSample,
        Event.tier1 (env.encode q) k, Event.tier2 (env.encode q) k,
        Event.tier3 ("%" ++ q ++ "%") k]) := by
  unfold search_similar_chunks
  simp [hconn, hcols, hsample, h1, h2, h3]

/-- The full outcome of the search when all three tiers raise. -/
theorem search_eq_allFail (env : Env) (q : String) (k : Nat) (e1 e2 e3 : String)
    (hconn : env.connErr = none) (hcols : env.colsErr = none)
    (hsample : env.sampleErr = none) (h1 : env.tier1Err = some e1)
    (h2 : env.tier2Err = some e2) (h3 : env.tier3Err = some e3) :
    search_similar_chunks env q k =
      (Except.error ⟨500, "Search failed: " ++ e3⟩,
       [Event.introspectCols, Event.introspectSample,
        Event.tier1 (env.encode q) k, Event.tier2 (env.encode q) k,
        Event.tier3 ("%" ++ q ++ "%") k]) := by
  unfold search_similar_chunks
  simp [hconn, hcols, hsample, h1, h2, h3]

/-- The search never attempts the composer or the completion service: its
trace holds only introspection and tier events. -/
theorem search_trace_no_compose (env : Env) (q : String) (k : Nat) :
    ∀ ev ∈ (search_similar_chunks env q k).snd,
      (∀ s, ev ≠ Event.compose s) ∧ (∀ m p mt tp, ev ≠ Event.llmCall m p mt tp) := by
  intro ev hev
  unfold search_similar_chunks at hev
  rcases hc : env.connErr with _ | e <;> simp [hc] at hev
  rcases h1 : env.colsErr with _ | e <;> simp [h1] at hev
  · rcases h2 : env.sampleErr with _ | e <;> simp [h2] at hev
    · rcases h3 : env.tier1Err with _ | e <;> simp [h3] at hev
      · rcases hev with rfl | rfl | rfl <;> simp
      · rcases h4 : env.tier2Err with _ | e <;> simp [h4] at hev
        · rcases hev with rfl | rfl | rfl | rfl <;> simp
        · rcases h5 : env.tier3Err with _ | e <;> simp [h5] at hev <;>
            rcases hev with rfl | rfl | rfl | rfl | rfl <;> simp
    · rcases hev with rfl | rfl <;> simp
  · subst hev; simp

/-! ### Environments used to instantiate theorems at concrete inputs -/

/-- A fully healthy environment over an empty corpus. -/
def baseEnv : Env where
  rows := []
  encode := fun _ => []
  dist := fun _ _ => 0
  groqModel := "m"
  connErr := none
  colsErr := none
  sampleErr := none
  tier1Err := none
  tier2Err := none
  tier3Err := none
  llm := fun _ _ _ _ => Except.error "down"

/-! ### C2: tier 2 is attempted with identical arguments before tier 3 -/

/-- C2: whenever the native-vector tier raises, the cast-fallback tier is
attempted with the same query embedding and the same `top_k` immediately
after it, and a textual-fallback attempt can only occur once the
cast-fallback tier has also raised. -/
theorem tier2_same_args_tier3_only_after (env : Env) (q : String) (k : Nat) (e1 : String)
    (hconn : env.connErr = none) (hcols : env.colsErr = none)
    (hsample : env.sampleErr = none) (h1 : env.tier1Err = some e1) :
    (∃ rest,
        (search_similar_chunks env q k).snd =
          [Event.introspectCols, Event.introspectSample,
           Event.tier1 (env.encode q) k, Event.tier2 (env.encode q) k] ++ rest) ∧
      (∀ pat j, Event.tier3 pat j ∈ (search_similar_chunks env q k).snd →
        env.tier2Err ≠ none) := by
  rcases h2 : env.tier2Err with _ | e2
  · rw [search_eq_tier2 env q k e1 hconn hcols hsample h1 h2]
    exact ⟨⟨[], rfl⟩, by simp⟩
  · rcases h3 : env.tier3Err with _ | e3
    · rw [search_eq_tier3 env q k e1 e2 hconn hcols hsample h1 h2 h3]
      exact ⟨⟨[Event.tier3 ("%" ++ q ++ "%") k], rfl⟩, by simp [h2]⟩
    · rw [search_eq_allFail env q k e1 e2 e3 hconn hcols hsample h1 h2 h3]
      exact ⟨⟨[Event.tier3 ("%" ++ q ++ "%") k], rfl⟩, by simp [h2]⟩

/-- Concrete instance of C2: tier 1 raises, all else healthy. -/
def envC2 : Env := { baseEnv with tier1Err := some "t1" }

/-- Witness for C2 at `envC2`, query `"q"`, `top_k = 5`. -/
theorem tier2_same_args_tier3_only_after_witness :
    (∃ rest,
        (search_similar_chunks envC2 "q" 5).snd =
          [Event.introspectCols, Event.introspectSample,
           Event.tier1 [] 5, Event.tier2 [] 5] ++ rest) ∧
      (∀ pat j, Event.tier3 pat j ∈ (search_similar_chunks envC2 "q" 5).snd →
        envC2.tier2Err ≠ none) :=
  tier2_same_args_tier3_only_after envC2 "q" 5 "t1" rfl rfl rfl rfl

/-! ### C5: exhaustion of all three tiers yields a structured 500 -/

/-- C5: when all three retrieval tiers raise, the `/chat` handler returns a
structured HTTP 500 error whose detail describes the search failure, not an
unhandled crash. -/
theorem allTiersFail_structured_500 (env : Env) (req : ChatRequest) (e1 e2 e3 : String)
    (hconn : env.connErr = none) (hcols : env.colsErr = none)
    (hsample : env.sampleErr = none) (h1 : env.tier1Err = some e1)
    (h2 : env.tier2Err = some e2) (h3 : env.tier3Err = some e3) :
    (chat env req).fst = Except.error ⟨500, "500: Search failed: " ++ e3⟩ := by
  unfold chat
  rw [search_eq_allFail env req.message 5 e1 e2 e3 hconn hcols hsample h1 h2 h3]
  simp only [httpErrorStr]
  have : (toString (500 : Nat) ++ ": ") ++ ("Search failed: " ++ e3) =
      "500: Search failed: " ++ e3 := by
    rw [← String.append_assoc]
    rfl
  rw [this]

/-- Concrete instance of C5: every tier raises. -/
def envC5 : Env :=
  { baseEnv with tier1Err := some "t1", tier2Err := some "t2", tier3Err := some "t3" }

/-- Witness for C5 at `envC5`. -/
theorem allTiersFail_structured_500_witness :
    (chat envC5 ⟨"q"⟩).fst = Except.error ⟨500, "500: Search failed: t3"⟩ :=
  allTiersFail_structured_500 envC5 ⟨"q"⟩ "t1" "t2" "t3" rfl rfl rfl rfl rfl rfl

/-! ### C9: schema introspection precedes the tiers and fails hard -/

/-- C9: the retriever runs the table-structure lookup and the one-row
embedding sample before any retrieval tier, and a failure of either
introspection query aborts retrieval with an HTTP 500 before any tier —
including the textual fallback — is attempted. -/
theorem introspection_first_and_hard (env : Env) (q : String) (k : Nat)
    (hconn : env.connErr = none) :
    (∀ e, env.colsErr = some e →
        (search_similar_chunks env q k).fst =
            Except.error ⟨500, "Search failed: " ++ e⟩ ∧
          (search_similar_chunks env q k).snd = [Event.introspectCols]) ∧
      (∀ e, env.colsErr = none → env.sampleErr = some e →
        (search_similar_chunks env q k).fst =
            Except.error ⟨500, "Search failed: " ++ e⟩ ∧
          (search_similar_chunks env q k).snd =
            [Event.introspectCols, Event.introspectSample]) ∧
      (env.colsErr = none → env.sampleErr = none →
        ∃ rest, (search_similar_chunks env q k).snd =
          Event.introspectCols :: Event.introspectSample :: rest) := by
  refine ⟨?_, ?_, ?_⟩
  · intro e he
    unfold search_similar_chunks
    simp [hconn, he]
  · intro e hcols he
    unfold search_similar_chunks
    simp [hconn, hcols, he]
  · intro hcols hsample
    rcases h1 : env.tier1Err with _ | e1
    · rw [search_eq_tier1 env q k hconn hcols hsample h1]; exact ⟨_, rfl⟩
    rcases h2 : env.tier2Err with _ | e2
    · rw [search_eq_tier2 env q k e1 hconn hcols hsample h1 h2]; exact ⟨_, rfl⟩
    rcases h3 : env.tier3Err with _ | e3
    · rw [search_eq_tier3 env q k e1 e2 hconn hcols hsample h1 h2 h3]; exact ⟨_, rfl⟩
    · rw [search_eq_allFail env q k e1 e2 e3 hconn hcols hsample h1 h2 h3]; exact ⟨_, rfl⟩

/-- Concrete instance of C9: the table-structure lookup raises. -/
def envC9 : Env := { baseEnv with colsErr := some "no table" }

/-- Witness for C9 at `envC9`: the hard 500 with no tier attempted. -/
theorem introspection_first_and_hard_witness :
    (search_similar_chunks envC9 "q" 5).fst =
        Except.error ⟨500, "Search failed: no table"⟩ ∧
      (search_similar_chunks envC9 "q" 5).snd = [Event.introspectCols] :=
  (introspection_first_and_hard envC9 "q" 5 rfl).1 "no table" rfl

/-! ### The composer's context and the handler's source formatting -/

/-- Spec-side description of the grounding context (§4.2): each passage's
text prefixed with its 1-based "Source N" label, joined with blank-line
separators, in retrieval order. -/
def specContext : Nat → List String → String
  | _, [] => ""
  | n, [t] => "Source " ++ toString n ++ ": " ++ t
  | n, t :: ts => ("Source " ++ toString n ++ ": " ++ t) ++ "\n\n" ++ specContext (n + 1) ts

/-- The labelled pieces the comprehension builds from index `n` on. -/
def contextPieces : Nat → List PyDict → List String
  | _, [] => []
  | n, d :: ds => ("Source " ++ toString (n + 1) ++ ": " ++ rowText d) :: contextPieces (n + 1) ds

theorem mapExc_enumFrom (chunks : List PyDict) (hwf : ∀ d ∈ chunks, IsResultRow d) :
    ∀ n, mapExc
        (fun ic => do
          let t ← pyGet ic.snd "text"
          Except.ok ("Source " ++ toString (ic.fst + 1) ++ ": " ++ pyValStr t))
        (List.enumFrom n chunks) =
      Except.ok (contextPieces n chunks) := by
  induction chunks with
  | nil => intro n; rfl
  | cons d ds ih =>
    intro n
    obtain ⟨t, s, rfl⟩ := hwf d (by simp)
    have ihds := ih (fun x hx => hwf x (by simp [hx])) (n + 1)
    simp only [List.enumFrom, mapExc, ihds, contextPieces, rowText_mkResultRow]
    rfl

theorem joinSep_contextPieces (chunks : List PyDict) :
    ∀ n, joinSep "\n\n" (contextPieces n chunks) = specContext (n + 1) (chunks.map rowText) := by
  induction chunks with
  | nil => intro n; rfl
  | cons d ds ih =>
    intro n
    cases ds with
    | nil => rfl
    | cons d2 ds2 =>
      have h := ih (n + 1)
      simp only [contextPieces, joinSep, specContext, List.map] at h ⊢
      rw [h]

/-- The grounding context the composer builds over well-formed rows is
exactly the spec's: 1-based source labels, blank-line separators, retrieval
order preserved. -/
theorem buildContext_wf (chunks : List PyDict) (hwf : ∀ d ∈ chunks, IsResultRow d) :
    buildContext chunks = Except.ok (specContext 1 (chunks.map rowText)) := by
  unfold buildContext
  rw [show chunks.enum = List.enumFrom 0 chunks from rfl, mapExc_enumFrom chunks hwf 0]
  show Except.ok (joinSep "\n\n" (contextPieces 0 chunks)) =
    Except.ok (specContext 1 (chunks.map rowText))
  rw [joinSep_contextPieces chunks 0]

theorem formatSource_mkResultRow (t : String) (s : ℚ) :
    formatSource (mkResultRow t s) = Except.ok ⟨truncateContent t, round3 s⟩ := rfl

/-- Over well-formed rows, the handler's `sources` comprehension succeeds
and is the pointwise truncation/rounding of the retrieved rows. -/
theorem formatSources_wf (chunks : List PyDict) (hwf : ∀ d ∈ chunks, IsResultRow d) :
    formatSources chunks =
      Except.ok (chunks.map
        (fun d => ⟨truncateContent (rowText d), round3 (rowSim d)⟩)) := by
  induction chunks with
  | nil => rfl
  | cons d ds ih =>
    obtain ⟨t, s, rfl⟩ := hwf d (by simp)
    have ihds := ih (fun x hx => hwf x (by simp [hx]))
    unfold formatSources at ihds ⊢
    simp only [mapExc, formatSource_mkResultRow, ihds, List.map,
      rowText_mkResultRow, rowSim_mkResultRow]
    rfl

/-- The handler's outcome when retrieval succeeds with an empty result. -/
theorem chat_eq_of_ok_nil (env : Env) (req : ChatRequest)
    (hs : (search_similar_chunks env req.message 5).fst = Except.ok []) :
    (chat env req).fst = Except.ok ⟨cannedAnswer, []⟩ := by
  rcases hp : search_similar_chunks env req.message 5 with ⟨res, tr⟩
  rw [hp] at hs
  have hres : res = Except.ok [] := hs
  subst hres
  simp [chat, hp]

/-- The handler's outcome when retrieval succeeds with a non-empty result:
HTTP 200 with the composed answer and the formatted sources. -/
theorem chat_eq_of_ok (env : Env) (req : ChatRequest) (chunks : List PyDict)
    (hs : (search_similar_chunks env req.message 5).fst = Except.ok chunks)
    (hne : chunks ≠ []) :
    (chat env req).fst =
      Except.ok ⟨(generate_answer env req.message chunks).fst,
        chunks.map (fun d => ⟨truncateContent (rowText d), round3 (rowSim d)⟩)⟩ := by
  have hwf := searchOk_wellFormed env req.message 5 chunks hs
  have hfs := formatSources_wf chunks hwf
  rcases hp : search_similar_chunks env req.message 5 with ⟨res, tr⟩
  rw [hp] at hs
  have hres : res = Except.ok chunks := hs
  subst hres
  have hemp : chunks.isEmpty = false := by
    cases chunks with
    | nil => exact absurd rfl hne
    | cons a as => rfl
  simp [chat, hp, hemp, hfs]

/-! ### C1: empty corpus yields the canned answer, no composer call -/

/-- C1: when the corpus is empty and retrieval completes, the handler
returns the fixed "insufficient information" answer with an empty sources
list, and neither the composer nor the completion service is ever
attempted. -/
theorem emptyCorpus_canned_no_compose (env : Env) (req : ChatRequest)
    (hrows : env.rows = [])
    (hok : ∃ l, (search_similar_chunks env req.message 5).fst = Except.ok l) :
    (chat env req).fst = Except.ok ⟨cannedAnswer, []⟩ ∧
      ∀ ev ∈ (chat env req).snd,
        (∀ s, ev ≠ Event.compose s) ∧ (∀ m p mt tp, ev ≠ Event.llmCall m p mt tp) := by
  obtain ⟨l, hl⟩ := hok
  have hempty := searchOk_empty_rows env req.message 5 l hrows hl
  subst hempty
  refine ⟨chat_eq_of_ok_nil env req hl, ?_⟩
  intro ev hev
  rcases hp : search_similar_chunks env req.message 5 with ⟨res, tr⟩
  rw [hp] at hl
  have hres : res = Except.ok [] := hl
  subst hres
  have htr : (chat env req).snd = tr := by simp [chat, hp]
  rw [htr] at hev
  have h := search_trace_no_compose env req.message 5
  rw [hp] at h
  exact h ev hev

/-- Witness for C1 at the empty-corpus environment `baseEnv`. -/
theorem emptyCorpus_canned_no_compose_witness :
    (chat baseEnv ⟨"q"⟩).fst = Except.ok ⟨cannedAnswer, []⟩ ∧
      ∀ ev ∈ (chat baseEnv ⟨"q"⟩).snd,
        (∀ s, ev ≠ Event.compose s) ∧ (∀ m p mt tp, ev ≠ Event.llmCall m p mt tp) :=
  emptyCorpus_canned_no_compose baseEnv ⟨"q"⟩ rfl ⟨[], rfl⟩

/-! ### C10: the composer is total and converts every failure to text -/

/-- C10: `generate_answer` always returns a string: for every query, every
chunk list (empty included, and chunks on which context assembly itself
raises) and every completion-client behaviour, the result is either the
stripped completion text or the error-description string — no exception
propagates. -/
theorem generate_answer_total (env : Env) (q : String) (chunks : List PyDict) :
    (∃ e, buildContext chunks = Except.error e ∧
        (generate_answer env q chunks).fst = llmErrorAnswer e) ∨
      (∃ ctx e, buildContext chunks = Except.ok ctx ∧
        env.llm env.groqModel (mkPrompt ctx q) 1000 (7/10) = Except.error e ∧
        (generate_answer env q chunks).fst = llmErrorAnswer e) ∨
      (∃ ctx c, buildContext chunks = Except.ok ctx ∧
        env.llm env.groqModel (mkPrompt ctx q) 1000 (7/10) = Except.ok c ∧
        (generate_answer env q chunks).fst = pyStrip c) := by
  rcases hb : buildContext chunks with e | ctx
  · exact Or.inl ⟨e, rfl, by simp [generate_answer, hb]⟩
  · rcases hl : env.llm env.groqModel (mkPrompt ctx q) 1000 (7/10) with e | c
    · exact Or.inr (Or.inl ⟨ctx, e, rfl, hl, by simp [generate_answer, hb, hl]⟩)
    · exact Or.inr (Or.inr ⟨ctx, c, rfl, hl, by simp [generate_answer, hb, hl]⟩)

/-- Context assembly raises a `KeyError` on a chunk without a `"text"` key,
and `generate_answer` converts it to the error string (the concrete case of
C10's interesting branch). -/
theorem generate_answer_keyError :
    (generate_answer baseEnv "q" [[("similarity", PyVal.pnum 1)]]).fst =
      llmErrorAnswer "'text'" := rfl

/-! ### C4: completion failure still yields HTTP 200 with sources -/

/-- C4: when retrieval returned a non-empty chunk list and the completion
call raises, the composer swallows the exception and returns the string
embedding the error detail, and the handler still answers HTTP 200 with
that string and the sources built from the originally retrieved chunks. -/
theorem completion_failure_still_200 (env : Env) (req : ChatRequest)
    (chunks : List PyDict) (e : String)
    (hs : (search_similar_chunks env req.message 5).fst = Except.ok chunks)
    (hne : chunks ≠ [])
    (hllm : ∀ p, env.llm env.groqModel p 1000 (7/10) = Except.error e) :
    (chat env req).fst =
        Except.ok ⟨llmErrorAnswer e,
          chunks.map (fun d => ⟨truncateContent (rowText d), round3 (rowSim d)⟩)⟩ ∧
      chunks.map (fun d => (⟨truncateContent (rowText d), round3 (rowSim d)⟩ : Source)) ≠ [] := by
  have hwf := searchOk_wellFormed env req.message 5 chunks hs
  have hga : (generate_answer env req.message chunks).fst = llmErrorAnswer e := by
    simp [generate_answer, buildContext_wf chunks hwf, hllm]
  refine ⟨?_, by simp [hne]⟩
  rw [chat_eq_of_ok env req chunks hs hne, hga]

/-- A healthy one-passage environment whose completion client always
raises. -/
def envDoc : Env := { baseEnv with rows := [⟨"doc one", [1]⟩] }

/-- The single row the vector tier returns over `envDoc`. -/
def chunkDoc : PyDict := mkResultRow "doc one" (1 - 0)

/-- Witness for C4 at `envDoc` (its client raises `"down"`). -/
theorem completion_failure_still_200_witness :
    (chat envDoc ⟨"q"⟩).fst =
        Except.ok ⟨llmErrorAnswer "down",
          [chunkDoc].map (fun d => ⟨truncateContent (rowText d), round3 (rowSim d)⟩)⟩ ∧
      [chunkDoc].map (fun d => (⟨truncateContent (rowText d), round3 (rowSim d)⟩ : Source)) ≠ [] :=
  completion_failure_still_200 envDoc ⟨"q"⟩ [chunkDoc] "down" rfl (by simp) (fun _ => rfl)

/-! ### C6: source content is the 200-character truncation -/

/-- C6: every source entry's `content` is the passage text itself when its
length is at most 200 characters, and exactly the first 200 characters
followed by `"..."` otherwise. -/
theorem source_content_truncated (env : Env) (req : ChatRequest)
    (chunks : List PyDict) (resp : ChatResponse)
    (hs : (search_similar_chunks env req.message 5).fst = Except.ok chunks)
    (hc : (chat env req).fst = Except.ok resp) :
    resp.sources.length = chunks.length ∧
      ∀ (i : Nat) (h1 : i < resp.sources.length) (h2 : i < chunks.length),
        (resp.sources.get ⟨i, h1⟩).content =
          (if 200 < (rowText (chunks.get ⟨i, h2⟩)).length
           then (rowText (chunks.get ⟨i, h2⟩)).take 200 ++ "..."
           else rowText (chunks.get ⟨i, h2⟩)) := by
  by_cases hne : chunks = []
  · subst hne
    rw [chat_eq_of_ok_nil env req hs] at hc
    have hresp : (⟨cannedAnswer, []⟩ : ChatResponse) = resp := by
      simpa using hc
    subst hresp
    exact ⟨rfl, by intro i h1 h2; simp at h1⟩
  · rw [chat_eq_of_ok env req chunks hs hne] at hc
    have hresp :
        (⟨(generate_answer env req.message chunks).fst,
          chunks.map (fun d => ⟨truncateContent (rowText d), round3 (rowSim d)⟩)⟩ :
            ChatResponse) = resp := by
      simpa using hc
    subst hresp
    refine ⟨by simp, ?_⟩
    intro i h1 h2
    simp [List.get_eq_getElem, truncateContent]

/-- Witness response: the outcome of `chat` over `envDoc`. -/
def respDoc : ChatResponse := ⟨llmErrorAnswer "down", [⟨"doc one", round3 (1 - 0)⟩]⟩

/-- Witness for C6 at `envDoc`. -/
theorem source_content_truncated_witness :
    respDoc.sources.length = [chunkDoc].length ∧
      ∀ (i : Nat) (h1 : i < respDoc.sources.length) (h2 : i < [chunkDoc].length),
        (respDoc.sources.get ⟨i, h1⟩).content =
          (if 200 < (rowText ([chunkDoc].get ⟨i, h2⟩)).length
           then (rowText ([chunkDoc].get ⟨i, h2⟩)).take 200 ++ "..."
           else rowText ([chunkDoc].get ⟨i, h2⟩)) :=
  source_content_truncated envDoc ⟨"q"⟩ [chunkDoc] respDoc rfl rfl

/-! ### C7: source similarity is the score rounded to 3 decimals -/

/-- C7: every source entry's `similarity` is the retrieved score rounded to
exactly 3 decimal places (`round(x, 3)`), hence a multiple of 1/1000. -/
theorem source_similarity_rounded (env : Env) (req : ChatRequest)
    (chunks : List PyDict) (resp : ChatResponse)
    (hs : (search_similar_chunks env req.message 5).fst = Except.ok chunks)
    (hc : (chat env req).fst = Except.ok resp) :
    resp.sources.length = chunks.length ∧
      ∀ (i : Nat) (h1 : i < resp.sources.length) (h2 : i < chunks.length),
        (resp.sources.get ⟨i, h1⟩).similarity = round3 (rowSim (chunks.get ⟨i, h2⟩)) ∧
          ∃ z : ℤ, (resp.sources.get ⟨i, h1⟩).similarity * 1000 = (z : ℚ) := by
  by_cases hne : chunks = []
  · subst hne
    rw [chat_eq_of_ok_nil env req hs] at hc
    have hresp : (⟨cannedAnswer, []⟩ : ChatResponse) = resp := by
      simpa using hc
    subst hresp
    exact ⟨rfl, by intro i h1 h2; simp at h1⟩
  · rw [chat_eq_of_ok env req chunks hs hne] at hc
    have hresp :
        (⟨(generate_answer env req.message chunks).fst,
          chunks.map (fun d => ⟨truncateContent (rowText d), round3 (rowSim d)⟩)⟩ :
            ChatResponse) = resp := by
      simpa using hc
    subst hresp
    refine ⟨by simp, ?_⟩
    intro i h1 h2
    refine ⟨by simp [List.get_eq_getElem], ?_⟩
    refine ⟨pyRound (rowSim (chunks.get ⟨i, h2⟩) * 1000), ?_⟩
    simp [List.get_eq_getElem, round3]

/-- Witness for C7 at `envDoc`. -/
theorem source_similarity_rounded_witness :
    respDoc.sources.length = [chunkDoc].length ∧
      ∀ (i : Nat) (h1 : i < respDoc.sources.length) (h2 : i < [chunkDoc].length),
        (respDoc.sources.get ⟨i, h1⟩).similarity = round3 (rowSim ([chunkDoc].get ⟨i, h2⟩)) ∧
          ∃ z : ℤ, (respDoc.sources.get ⟨i, h1⟩).similarity * 1000 = (z : ℚ) :=
  source_similarity_rounded envDoc ⟨"q"⟩ [chunkDoc] respDoc rfl rfl

/-! ### C8: the composer's context, call parameters and trimming -/

/-- C8: over a retrieved non-empty chunk list, the composer's grounding
context is each passage's text under its 1-based "Source N" label joined by
blank lines in retrieval order, the completion service is invoked once with
`max_tokens = 1000` and `temperature = 0.7`, and the returned answer is the
completion's text with surrounding whitespace stripped. -/
theorem composer_context_and_call (env : Env) (q : String) (k : Nat)
    (chunks : List PyDict) (a : String)
    (hs : (search_similar_chunks env q k).fst = Except.ok chunks)
    (_hne : chunks ≠ [])
    (hllm : env.llm env.groqModel
        (mkPrompt (specContext 1 (chunks.map rowText)) q) 1000 (7/10) = Except.ok a) :
    buildContext chunks = Except.ok (specContext 1 (chunks.map rowText)) ∧
      (generate_answer env q chunks).fst = pyStrip a ∧
      (generate_answer env q chunks).snd =
        [Event.compose q,
         Event.llmCall env.groqModel
           (mkPrompt (specContext 1 (chunks.map rowText)) q) 1000 (7/10)] := by
  have hwf := searchOk_wellFormed env q k chunks hs
  have hb := buildContext_wf chunks hwf
  refine ⟨hb, ?_, ?_⟩ <;> simp [generate_answer, hb, hllm]

/-- A one-passage environment whose completion client returns text with
surrounding whitespace. -/
def envC8 : Env :=
  { baseEnv with rows := [⟨"doc one", [1]⟩], llm := fun _ _ _ _ => Except.ok "  ans  " }

/-- Witness for C8 at `envC8`. -/
theorem composer_context_and_call_witness :
    buildContext [chunkDoc] = Except.ok (specContext 1 ([chunkDoc].map rowText)) ∧
      (generate_answer envC8 "q" [chunkDoc]).fst = pyStrip "  ans  " ∧
      (generate_answer envC8 "q" [chunkDoc]).snd =
        [Event.compose "q",
         Event.llmCall envC8.groqModel
           (mkPrompt (specContext 1 ([chunkDoc].map rowText)) "q") 1000 (7/10)] :=
  composer_context_and_call envC8 "q" 5 [chunkDoc] "  ans  " rfl (by simp) rfl

/-! ### C3: the textual fallback against substring containment -/

theorem charBeq_comm (a b : Char) : (a == b) = (b == a) := by
  by_cases h : a = b
  · subst h; rfl
  · simp [beq_eq_false_iff_ne, h, Ne.symm h]

theorem listPre_nil (w : List Char) : listPre w [] = w.isEmpty := by
  cases w <;> rfl

theorem likeMatches_nil_pat (t : List Char) : likeMatches [] t = t.isEmpty := rfl

theorem likeMatches_percent (p : List Char) (t : List Char) :
    likeMatches ('%' :: p) t = t.tails.any (fun t2 => likeMatches p t2) := by
  rw [likeMatches.eq_def]
  exact rfl

theorem likeMatches_underscore (p : List Char) (t : List Char) :
    likeMatches ('_' :: p) t = stepOne (fun ts => likeMatches p ts) t := by
  rw [likeMatches.eq_def]
  exact rfl

theorem likeMatches_lit (c : Char) (p : List Char) (t : List Char)
    (h1 : c ≠ '%') (h2 : c ≠ '_') (h3 : c ≠ '\\') :
    likeMatches (c :: p) t = stepLit (fun ts => likeMatches p ts) c t := by
  rw [likeMatches.eq_def]
  simp only []
  rw [if_neg h1, if_neg h2, if_neg h3]

theorem percent_matches_all : ∀ t : List Char, likeMatches ['%'] t = true := by
  intro t
  induction t with
  | nil => rfl
  | cons d ts ih =>
    rw [likeMatches_percent]
    show (likeMatches [] (d :: ts) || (List.tails ts).any fun t2 => likeMatches [] t2) = true
    rw [← likeMatches_percent, ih]
    simp

/-- A wildcard-free pattern followed by `%` matches exactly the texts it is
a case-insensitive prefix of. -/
theorem likeMatches_literal_append (w : List Char)
    (hw : ∀ c ∈ w, c ≠ '%' ∧ c ≠ '_' ∧ c ≠ '\\') :
    ∀ t, likeMatches (w ++ ['%']) t = listPre (lowerList w) (lowerList t) := by
  induction w with
  | nil =>
    intro t
    show likeMatches ['%'] t = listPre [] (lowerList t)
    rw [percent_matches_all t]
    rfl
  | cons c w ih =>
    intro t
    obtain ⟨hc1, hc2, hc3⟩ := hw c (by simp)
    have ihw := ih (fun x hx => hw x (by simp [hx]))
    cases t with
    | nil =>
      show likeMatches (c :: (w ++ ['%'])) [] = _
      rw [likeMatches_lit _ _ _ hc1 hc2 hc3]
      rfl
    | cons d ts =>
      show likeMatches (c :: (w ++ ['%'])) (d :: ts) = _
      rw [likeMatches_lit _ _ _ hc1 hc2 hc3]
      show ((asciiLower d == asciiLower c) && likeMatches (w ++ ['%']) ts) = _
      rw [ihw ts, charBeq_comm]
      rfl

/-- `%w%` under `ILIKE`, for a wildcard-free `w`, is exactly
case-insensitive substring containment. -/
theorem likeMatches_substring (w : List Char)
    (hw : ∀ c ∈ w, c ≠ '%' ∧ c ≠ '_' ∧ c ≠ '\\') :
    ∀ t, likeMatches ('%' :: (w ++ ['%'])) t = listSub (lowerList w) (lowerList t) := by
  intro t
  induction t with
  | nil =>
    rw [likeMatches_percent]
    show (likeMatches (w ++ ['%']) [] || false) = listSub (lowerList w) []
    rw [likeMatches_literal_append w hw []]
    show (listPre (lowerList w) [] || false) = listSub (lowerList w) []
    rw [listPre_nil]
    show ((lowerList w).isEmpty || false) = (lowerList w).isEmpty
    simp
  | cons d ts ih =>
    rw [likeMatches_percent]
    show (likeMatches (w ++ ['%']) (d :: ts) ||
        (List.tails ts).any fun t2 => likeMatches (w ++ ['%']) t2) = _
    rw [← likeMatches_percent, ih, likeMatches_literal_append w hw (d :: ts)]
    rfl

theorem toList_append (a b : String) : (a ++ b).toList = a.toList ++ b.toList := by
  simp [String.toList, String.data_append]

theorem pattern_toList (q : String) :
    ("%" ++ q ++ "%").toList = '%' :: (q.toList ++ ['%']) := by
  rw [toList_append, toList_append]
  show (['%'] ++ q.toList) ++ ['%'] = '%' :: (q.toList ++ ['%'])
  simp

/-- For a query without SQL LIKE metacharacters, the ILIKE pattern the code
issues is equivalent to the spec's case-insensitive substring containment. -/
theorem ilike_eq_containsCI (q t : String)
    (hq : ∀ c ∈ q.toList, c ≠ '%' ∧ c ≠ '_' ∧ c ≠ '\\') :
    ilike ("%" ++ q ++ "%") t = containsCI q t := by
  unfold ilike containsCI
  rw [pattern_toList q]
  exact likeMatches_substring q.toList hq t.toList

/-- C3 (amended): when both vector tiers raise and the query contains no
SQL LIKE metacharacter (`%`, `_`, `\`), the textual fallback returns up to
`top_k` passages whose text contains the raw query as a case-insensitive
substring, each with the fixed sentinel similarity 0.5, in store-native
order. -/
theorem textual_fallback_substring (env : Env) (q : String) (k : Nat) (e1 e2 : String)
    (hconn : env.connErr = none) (hcols : env.colsErr = none)
    (hsample : env.sampleErr = none) (h1 : env.tier1Err = some e1)
    (h2 : env.tier2Err = some e2) (h3 : env.tier3Err = none)
    (hq : ∀ c ∈ q.toList, c ≠ '%' ∧ c ≠ '_' ∧ c ≠ '\\') :
    (search_similar_chunks env q k).fst =
        Except.ok (((env.rows.filter (fun r => containsCI q r.text)).take k).map
          (fun r => mkResultRow r.text (1/2))) ∧
      (((env.rows.filter (fun r => containsCI q r.text)).take k).map
          (fun r => mkResultRow r.text (1/2))).length ≤ k := by
  have hfun : (fun r : StoredRow => ilike ("%" ++ q ++ "%") r.text) =
      (fun r : StoredRow => containsCI q r.text) :=
    funext fun r => ilike_eq_containsCI q r.text hq
  constructor
  · rw [search_eq_tier3 env q k e1 e2 hconn hcols hsample h1 h2 h3]
    show Except.ok (textRows env q k) = _
    unfold textRows
    rw [hfun]
  · simp only [List.length_map]
    exact List.length_take_le k _

/-- A two-passage store on which both vector tiers raise. -/
def envC3w : Env :=
  { baseEnv with rows := [⟨"Foo BAR baz", []⟩, ⟨"nope", []⟩],
                 tier1Err := some "t1", tier2Err := some "t2" }

/-- Witness for C3 (amended) at `envC3w` with the wildcard-free query
`"bar"`: exactly the passage containing "bar" case-insensitively is
returned, with similarity 0.5. -/
theorem textual_fallback_substring_witness :
    ((search_similar_chunks envC3w "bar" 5).fst =
        Except.ok (((envC3w.rows.filter (fun r => containsCI "bar" r.text)).take 5).map
          (fun r => mkResultRow r.text (1/2))) ∧
      (((envC3w.rows.filter (fun r => containsCI "bar" r.text)).take 5).map
          (fun r => mkResultRow r.text (1/2))).length ≤ 5) ∧
      ((envC3w.rows.filter (fun r => containsCI "bar" r.text)).take 5).map
          (fun r => mkResultRow r.text (1/2)) = [mkResultRow "Foo BAR baz" (1/2)] :=
  ⟨textual_fallback_substring envC3w "bar" 5 "t1" "t2" rfl rfl rfl rfl rfl rfl (by decide),
   by rfl⟩

/-- A one-passage store (text `"ab"`) on which both vector tiers raise. -/
def envC3 : Env :=
  { baseEnv with rows := [⟨"ab", []⟩], tier1Err := some "t1", tier2Err := some "t2" }

/-- Counterexample to C3 as stated: for the query `"_"` the textual
fallback returns the passage `"ab"` (because `_` is an SQL LIKE wildcard
matching any single character), yet `"ab"` does not contain `"_"` as a
case-insensitive substring. -/
theorem textual_fallback_substring_cex :
    (search_similar_chunks envC3 "_" 5).fst = Except.ok [mkResultRow "ab" (1/2)] ∧
      containsCI "_" "ab" = false := by
  constructor
  · rw [search_eq_tier3 envC3 "_" 5 "t1" "t2" rfl rfl rfl rfl rfl rfl]
    show Except.ok (textRows envC3 "_" 5) = _
    have hil : ilike "%_%" "ab" = true := rfl
    unfold textRows
    rw [show envC3.rows = [⟨"ab", []⟩] from rfl]
    simp [List.filter_cons, hil]
  · rfl

end ChatbotRag
